import Mathlib

/-
Verification of the MedifinderBot/medifinder-mcp query and aggregation layer.

The development is a shallow embedding of the read-only query layer in
`app/db/queries.py` (and the supply-metric derivation inlined in
`app/mcp/tools.py` and `app/mcp/resources.py`) over an explicit relational
store.  The SQLAlchemy tables become lists of records, SQL `ILIKE` becomes an
executable pattern matcher over lowercased character lists, an unordered SQL
result set is modelled as table order, and `ORDER BY` is modelled as a stable
sort of the joined rows.  SQL `NULL` is `Option.none`; numeric columns are
`Int` and SQL floats are modelled as rationals; timestamps and dates are
carried as opaque ISO strings because no query logic inspects them.
-/

namespace Medifinder

/-- Values that can appear in a serialized result dictionary
(the Python dicts built by `to_dict` and by the query functions). -/
inductive Val where
  | null : Val
  | s : String → Val
  | i : Int → Val
  | q : ℚ → Val
deriving DecidableEq, Repr

/-- Python result dictionaries are modelled as association lists
from string keys to values, in insertion order. -/
abbrev Dict := List (String × Val)

/-- Embed a nullable string column into a dictionary value. -/
def os : Option String → Val
  | some v => Val.s v
  | none => Val.null

/-- Embed a nullable integer column into a dictionary value. -/
def oi : Option Int → Val
  | some v => Val.i v
  | none => Val.null

/-- Embed a nullable float column (modelled as a rational) into a value. -/
def oq : Option ℚ → Val
  | some v => Val.q v
  | none => Val.null

/-! ### SQL LIKE / ILIKE

`Column.ilike(pat)` in PostgreSQL lowercases both operands and then runs the
SQL `LIKE` pattern matcher: `%` matches any (possibly empty) substring, `_`
matches exactly one character, every other pattern character matches itself.
-/

/-- Executable SQL `LIKE` matcher: does pattern `p` match string `s`
(both given as character lists)?  A `%` matches when the rest of the
pattern matches some suffix of the remaining string; recursion is
structural on the pattern. -/
def likeMatch : List Char → List Char → Bool
  | [], s => s.isEmpty
  | p :: ps, s =>
    if p = '%' then s.tails.any (fun s2 => likeMatch ps s2)
    else
      match s with
      | [] => false
      | c :: s2 => if p = '_' then likeMatch ps s2 else p == c && likeMatch ps s2

/-- Character list of a string, lowercased (PostgreSQL `lower`). -/
def lowerChars (str : String) : List Char := str.data.map Char.toLower

/-- SQL `ILIKE`: case-insensitive `LIKE`, i.e. `LIKE` on the lowercased
string against the lowercased pattern. -/
def ilike (str : String) (pat : String) : Bool :=
  likeMatch (lowerChars pat) (lowerChars str)

/-- The pattern built by every search function in `app/db/queries.py`:
the user string wrapped in `%...%` (f-string `f"%{name}%"`). -/
def likePattern (name : String) : String := "%" ++ name ++ "%"

/-- A character list free of the `LIKE` wildcard characters. -/
def noWild (l : List Char) : Bool := l.all (fun c => c ≠ '%' && c ≠ '_')

/-! ### Entity store (`app/models/*.py`)

Each SQLAlchemy model becomes a record; nullable columns are `Option`s.
The `created_at`/`updated_at` timestamps of `BaseModel` and the
`report_date` column are carried as already-ISO-formatted optional strings,
since the query layer only passes them through `isoformat()`.
-/

/-- Row of table `regions` (`app/models/region.py`). -/
structure Region where
  region_id : Int
  name : String
  code : Option String
  created_at : Option String
  updated_at : Option String
deriving DecidableEq, Repr

/-- Row of table `medical_centers` (`app/models/medical_center.py`). -/
structure MedicalCenter where
  center_id : Int
  code : Option String
  name : String
  region_id : Option Int
  category : Option String
  reporter_name : Option String
  institution_type : Option String
  reporter_type : Option String
  address : Option String
  latitude : Option ℚ
  longitude : Option ℚ
  created_at : Option String
  updated_at : Option String
deriving DecidableEq, Repr

/-- Row of table `product_types` (`app/models/product_type.py`). -/
structure ProductType where
  type_id : Int
  code : Option String
  name : String
  description : Option String
  created_at : Option String
  updated_at : Option String
deriving DecidableEq, Repr

/-- Row of table `products` (`app/models/product.py`). -/
structure Product where
  product_id : Int
  code : Option String
  name : String
  type_id : Option Int
  description : Option String
  dosage_form : Option String
  strength : Option String
  created_at : Option String
  updated_at : Option String
deriving DecidableEq, Repr

/-- Row of table `inventory` (`app/models/inventory.py`). -/
structure Inventory where
  inventory_id : Int
  center_id : Option Int
  product_id : Option Int
  current_stock : Option Int
  avg_monthly_consumption : Option ℚ
  accumulated_consumption_4m : Option Int
  measurement : Option ℚ
  last_month_consumption : Option Int
  last_month_stock : Option Int
  status_indicator : Option String
  cpma_12_months_ago : Option ℚ
  cpma_24_months_ago : Option ℚ
  cpma_36_months_ago : Option ℚ
  accumulated_consumption_12m : Option Int
  report_date : Option String
  status : Option String
  created_at : Option String
  updated_at : Option String
deriving DecidableEq, Repr

/-- The relational store the queries run against: one list per table,
in table order. -/
structure Store where
  regions : List Region
  centers : List MedicalCenter
  product_types : List ProductType
  products : List Product
  inventories : List Inventory
deriving DecidableEq, Repr

/-! ### Dictionary keys appearing in the source -/

def kRegion : String := "region"
def kTotalMedicines : String := "total_medicines"
def kAvailableMedicines : String := "available_medicines"
def kOverstock : String := "overstock"
def kUnderstock : String := "understock"
def kNormalstock : String := "normalstock"
def kOutofstock : String := "outofstock"
def kAvailabilityPercentage : String := "availability_percentage"
def kTypeName : String := "type_name"

/-- Indicator literal for overstock rows. -/
def sSobrestock : String := "Sobrestock"
/-- Indicator literal for understock rows. -/
def sSubstock : String := "Substock"
/-- Indicator literal for normal-stock rows. -/
def sNormostock : String := "Normostock"
/-- Indicator literal for out-of-stock rows. -/
def sDesabastecido : String := "Desabastecido"

/-! ### Relationship resolution

ORM relationships (`Inventory.medical_center`, `Inventory.product`,
`Product.product_type`) are foreign-key joins; inside the live `db_session`
they resolve by lookup, yielding `none` when the key is null or dangling.
-/

/-- Resolve a nullable center foreign key to its row. -/
def findCenter (store : Store) (cid : Option Int) : Option MedicalCenter :=
  cid.bind (fun c => store.centers.find? (fun mc => mc.center_id == c))

/-- Resolve a nullable product foreign key to its row. -/
def findProduct (store : Store) (pid : Option Int) : Option Product :=
  pid.bind (fun p => store.products.find? (fun pr => pr.product_id == p))

/-- Resolve a nullable product-type foreign key to its row. -/
def findProductType (store : Store) (tid : Option Int) : Option ProductType :=
  tid.bind (fun t => store.product_types.find? (fun pt => pt.type_id == t))

/-- `Product.to_dict` (`app/models/product.py`): the base keys, plus
`type_name` only when the `product_type` relationship resolves to a row
(the source adds the key inside `if self.product_type:`; the except branch
for detached sessions cannot trigger inside a live `db_session`). -/
def product_to_dict (store : Store) (p : Product) : Dict :=
  let base : Dict :=
    [ ("product_id", Val.i p.product_id),
      ("code", os p.code),
      ("name", Val.s p.name),
      ("type_id", oi p.type_id),
      ("description", os p.description),
      ("dosage_form", os p.dosage_form),
      ("strength", os p.strength),
      ("created_at", os p.created_at),
      ("updated_at", os p.updated_at) ]
  match findProductType store p.type_id with
  | some pt => base ++ [(kTypeName, Val.s pt.name)]
  | none => base

/-- `Inventory.to_dict` (`app/models/inventory.py`), with `center_name` and
`product_name` resolved through the relationships. -/
def inventory_to_dict (store : Store) (inv : Inventory) : Dict :=
  [ ("inventory_id", Val.i inv.inventory_id),
    ("center_id", oi inv.center_id),
    ("product_id", oi inv.product_id),
    ("current_stock", oi inv.current_stock),
    ("avg_monthly_consumption", oq inv.avg_monthly_consumption),
    ("accumulated_consumption_4m", oi inv.accumulated_consumption_4m),
    ("measurement", oq inv.measurement),
    ("last_month_consumption", oi inv.last_month_consumption),
    ("last_month_stock", oi inv.last_month_stock),
    ("status_indicator", os inv.status_indicator),
    ("cpma_12_months_ago", oq inv.cpma_12_months_ago),
    ("cpma_24_months_ago", oq inv.cpma_24_months_ago),
    ("cpma_36_months_ago", oq inv.cpma_36_months_ago),
    ("accumulated_consumption_12m", oi inv.accumulated_consumption_12m),
    ("report_date", os inv.report_date),
    ("status", os inv.status),
    ("center_name", match findCenter store inv.center_id with
                    | some c => Val.s c.name
                    | none => Val.null),
    ("product_name", match findProduct store inv.product_id with
                     | some pr => Val.s pr.name
                     | none => Val.null),
    ("created_at", os inv.created_at),
    ("updated_at", os inv.updated_at) ]

/-! ### Configuration (`app/config.py`) -/

/-- `MAX_SEARCH_RESULTS = int(os.getenv("MAX_SEARCH_RESULTS", "50"))`:
the configurable result cap, with its default value when the environment
variable is unset. -/
def MAX_SEARCH_RESULTS : Nat := 50

/-! ### Query Engine (`app/db/queries.py`) -/

/-- `search_medicines_by_name(name, limit=MAX_SEARCH_RESULTS)`
(queries.py lines 19-37): filter `Product.name ILIKE '%name%'`, apply the
`LIMIT`, convert each row with `to_dict`. -/
def search_medicines_by_name (store : Store) (name : String) (limit : Nat) :
    List Dict :=
  ((store.products.filter (fun p => ilike p.name (likePattern name))).take
      limit).map (product_to_dict store)

/-- The four-table inner join
`Product JOIN Inventory JOIN MedicalCenter JOIN Region` shared by
`search_medicines_by_location` and `get_available_medicine_locations`,
enumerated product-major as in `select_from(Product)`.  A row is emitted
only when every join key resolves (SQL inner-join semantics: a null or
dangling foreign key produces no row). -/
def joinPICR (store : Store) : List (Product × Inventory × MedicalCenter × Region) :=
  store.products.flatMap (fun p =>
    store.inventories.flatMap (fun inv =>
      store.centers.flatMap (fun c =>
        store.regions.filterMap (fun r =>
          if inv.product_id = some p.product_id ∧
             inv.center_id = some c.center_id ∧
             c.region_id = some r.region_id
          then some (p, inv, c, r) else none))))

/-- Result row of `search_medicines_by_location`: the product dict holding
the inventory dict under its `"inventory"` key.  The nested dict is carried
as a labelled pair because `Val` is flat. -/
structure LocSearchRow where
  product : Dict
  inventory : Dict
deriving DecidableEq, Repr

/-- `search_medicines_by_location(diresa, categoria=None, limit=...)`
(queries.py lines 39-74): join the four tables, filter
`Region.name ILIKE '%diresa%'`, optionally filter
`MedicalCenter.category ILIKE '%categoria%'` (skipped when `categoria` is
falsy, i.e. absent or the empty string), apply the `LIMIT`, and pair each
product dict with its inventory dict. -/
def search_medicines_by_location (store : Store) (diresa : String)
    (categoria : Option String) (limit : Nat) : List LocSearchRow :=
  let rows := (joinPICR store).filter
    (fun t => ilike t.2.2.2.name (likePattern diresa))
  let rows := match categoria with
    | some cat =>
        if cat.isEmpty then rows
        else rows.filter (fun t =>
          match t.2.2.1.category with
          | some cs => ilike cs (likePattern cat)
          | none => false)
    | none => rows
  (rows.take limit).map (fun t =>
    { product := product_to_dict store t.1,
      inventory := inventory_to_dict store t.2.1 })

/-- `get_medicine_by_id(medicine_id)` (queries.py lines 76-86):
`session.query(Product).filter(Product.product_id == medicine_id).first()`,
i.e. the first row with that id, or `None`. -/
def get_medicine_by_id (store : Store) (medicine_id : Int) : Option Product :=
  store.products.find? (fun p => p.product_id == medicine_id)

/-- Flat location record selected by `get_available_medicine_locations`
(the dict with the five fixed keys built on queries.py lines 121-127). -/
structure LocationRecord where
  region : String
  category : Option String
  center_name : String
  reporter_name : Option String
  stock : Option Int
deriving DecidableEq, Repr

/-- SQL `current_stock >= min_stock` on the nullable column:
`NULL` compares to unknown and the row is filtered out. -/
def minStockFilter (min_stock : Int) (inv : Inventory) : Bool :=
  match inv.current_stock with
  | some v => decide (min_stock ≤ v)
  | none => false

/-- Descending comparison on the nullable sort key `current_stock`
(`ORDER BY current_stock DESC`; PostgreSQL sorts `NULL` first in
descending order, i.e. treats it as largest). -/
def stockGE : Option Int → Option Int → Bool
  | none, _ => true
  | some _, none => false
  | some x, some y => decide (y ≤ x)

/-- Sort relation for `ORDER BY current_stock DESC` on location records. -/
def stockDesc (a b : LocationRecord) : Prop := stockGE a.stock b.stock = true

instance : DecidableRel stockDesc :=
  fun a b => inferInstanceAs (Decidable (stockGE a.stock b.stock = true))

instance : IsTotal LocationRecord stockDesc where
  total a b := by
    unfold stockDesc stockGE
    cases ha : a.stock <;> cases hb : b.stock <;> simp <;> omega

instance : IsTrans LocationRecord stockDesc where
  trans a b c hab hbc := by
    unfold stockDesc stockGE at hab hbc ⊢
    cases ha : a.stock <;> cases hb : b.stock <;> cases hc : c.stock <;>
      simp_all <;> omega

/-- The five-column `SELECT` of `get_available_medicine_locations`
(queries.py lines 101-106): region name, center category, center name,
reporter name and current stock of one joined row. -/
def selectLocation (t : Product × Inventory × MedicalCenter × Region) :
    LocationRecord :=
  { region := t.2.2.2.name,
    category := t.2.2.1.category,
    center_name := t.2.2.1.name,
    reporter_name := t.2.2.1.reporter_name,
    stock := t.2.1.current_stock }

/-- `get_available_medicine_locations(medicine_name, min_stock=1)`
(queries.py lines 88-129): filter the four-table join by
`Product.name ILIKE '%medicine_name%'` and `current_stock >= min_stock`,
select the five location columns, and sort by `current_stock` descending.
The single-key `ORDER BY` is modelled as a stable sort of the joined rows;
no `LIMIT` is applied in the source. -/
def get_available_medicine_locations (store : Store) (medicine_name : String)
    (min_stock : Int) : List LocationRecord :=
  let rows := (joinPICR store).filter (fun t =>
    ilike t.1.name (likePattern medicine_name) && minStockFilter min_stock t.2.1)
  List.insertionSort stockDesc (rows.map selectLocation)

/-! ### Aggregation Engine (`app/db/queries.py`, `app/mcp/tools.py`,
`app/mcp/resources.py`) -/

/-- Round a rational to 2 decimal places (Python `round(x, 2)`). -/
def round2 (x : ℚ) : ℚ := (round (x * 100) : ℤ) / 100

/-- SQL `current_stock > 0` on the nullable column (`NULL` is unknown,
so a null row is not counted). -/
def stockGtZero (inv : Inventory) : Bool :=
  match inv.current_stock with
  | some v => decide (0 < v)
  | none => false

/-- The joined row set
`Inventory JOIN MedicalCenter ON center_id WHERE region_id = rid` that every
per-region count sub-query of `get_stock_status_by_region`
(queries.py lines 141-184) ranges over. -/
def regionInventoryRows (store : Store) (rid : Int) :
    List (Inventory × MedicalCenter) :=
  store.inventories.flatMap (fun inv =>
    store.centers.filterMap (fun c =>
      if inv.center_id = some c.center_id ∧ c.region_id = some rid
      then some (inv, c) else none))

/-- The per-region aggregate built by one iteration of the loop in
`get_stock_status_by_region` (queries.py lines 141-194).  Each field is one
`count(inventory_id)` sub-query over `regionInventoryRows`: the total, the
rows with positive stock, and one count per status-indicator literal. -/
structure RegionStatus where
  region : String
  total_medicines : Nat
  available_medicines : Nat
  overstock : Nat
  understock : Nat
  normalstock : Nat
  outofstock : Nat
deriving DecidableEq, Repr

/-- Run the six count sub-queries of `get_stock_status_by_region` for one
region. -/
def regionStatus (store : Store) (region : Region) : RegionStatus :=
  let rows := regionInventoryRows store region.region_id
  { region := region.name,
    total_medicines := rows.length,
    available_medicines := (rows.filter (fun rc => stockGtZero rc.1)).length,
    overstock :=
      (rows.filter (fun rc => rc.1.status_indicator == some sSobrestock)).length,
    understock :=
      (rows.filter (fun rc => rc.1.status_indicator == some sSubstock)).length,
    normalstock :=
      (rows.filter (fun rc => rc.1.status_indicator == some sNormostock)).length,
    outofstock :=
      (rows.filter (fun rc => rc.1.status_indicator == some sDesabastecido)).length }

/-- The dict literal appended to `results` for one region
(queries.py lines 186-194), with exactly the seven keys of the source. -/
def regionStatusDict (st : RegionStatus) : Dict :=
  [ (kRegion, Val.s st.region),
    (kTotalMedicines, Val.i st.total_medicines),
    (kAvailableMedicines, Val.i st.available_medicines),
    (kOverstock, Val.i st.overstock),
    (kUnderstock, Val.i st.understock),
    (kNormalstock, Val.i st.normalstock),
    (kOutofstock, Val.i st.outofstock) ]

/-- `get_stock_status_by_region()` (queries.py lines 131-196): one dict per
region, in region-table order. -/
def get_stock_status_by_region (store : Store) : List Dict :=
  store.regions.map (fun r => regionStatusDict (regionStatus store r))

/-- Return record of `get_medicine_statistics()` (queries.py lines 235-246). -/
structure MedicineStatistics where
  total_inventory_records : Nat
  available_inventory : Nat
  overstock : Nat
  understock : Nat
  normalstock : Nat
  outofstock : Nat
  unique_products : Nat
  unique_medical_centers : Nat
  unique_regions : Nat
  availability_rate : ℚ
deriving DecidableEq, Repr

/-- `get_medicine_statistics()` (queries.py lines 198-246): global counts
over the whole inventory table, distinct-key counts over the entity tables,
and `availability_rate = round(available/total*100, 2)` guarded by
`if total_count > 0 else 0`. -/
def get_medicine_statistics (store : Store) : MedicineStatistics :=
  let total := store.inventories.length
  let avail := (store.inventories.filter stockGtZero).length
  { total_inventory_records := total,
    available_inventory := avail,
    overstock :=
      (store.inventories.filter
        (fun inv => inv.status_indicator == some sSobrestock)).length,
    understock :=
      (store.inventories.filter
        (fun inv => inv.status_indicator == some sSubstock)).length,
    normalstock :=
      (store.inventories.filter
        (fun inv => inv.status_indicator == some sNormostock)).length,
    outofstock :=
      (store.inventories.filter
        (fun inv => inv.status_indicator == some sDesabastecido)).length,
    unique_products := (store.products.map (fun p => p.product_id)).dedup.length,
    unique_medical_centers :=
      (store.centers.map (fun c => c.center_id)).dedup.length,
    unique_regions := (store.regions.map (fun r => r.region_id)).dedup.length,
    availability_rate :=
      if 0 < total then round2 ((avail : ℚ) / (total : ℚ) * 100) else 0 }

/-- Result of the supply-metric derivation. -/
structure SupplyMetrics where
  total_stock : Int
  avg_monthly_consumption : ℚ
  months_of_supply : ℚ
deriving DecidableEq, Repr

/-- Python truthiness filter on a nullable integer column: keep the value
when it is neither `None` nor `0` (the `if inv.current_stock` guard of the
generator expressions). -/
def truthyInt (o : Option Int) : Option Int :=
  match o with
  | some v => if v = 0 then none else some v
  | none => none

/-- Python truthiness filter on a nullable float column. -/
def truthyRat (o : Option ℚ) : Option ℚ :=
  match o with
  | some v => if v = 0 then none else some v
  | none => none

/-- The supply-metric derivation the spec calls `derive_supply_metrics`,
as inlined identically in `get_medicine_stock` (tools.py lines 156-170) and
`get_product_stock_resource` (resources.py lines 100-113):
`total_stock = sum(inv.current_stock for inv in rows if inv.current_stock)`;
`avg = sum(inv.avg_monthly_consumption for inv in rows if
inv.avg_monthly_consumption) / len(rows) if rows else 0`;
`months_of_supply = round(total_stock / avg, 2) if avg > 0 else 0`;
the returned `avg_monthly_consumption` field is `round(avg, 2)`. -/
def derive_supply_metrics (rows : List Inventory) : SupplyMetrics :=
  let total_stock : Int :=
    ((rows.map (fun inv => inv.current_stock)).filterMap truthyInt).sum
  let avg : ℚ :=
    if rows.isEmpty then 0
    else ((rows.map (fun inv => inv.avg_monthly_consumption)).filterMap
        truthyRat).sum / (rows.length : ℚ)
  { total_stock := total_stock,
    avg_monthly_consumption := round2 avg,
    months_of_supply :=
      if 0 < avg then round2 ((total_stock : ℚ) / avg) else 0 }

/-! ### Fallible aggregation (claim C9)

`get_stock_status_by_region` runs six count sub-queries per region inside
one `db_session`; a failing sub-query raises, `db_session`
(connection.py lines 22-40) rolls back and re-raises, so the exception
escapes the whole loop.  The fallible model threads an oracle assigning each
sub-query its outcome through the same loop structure. -/

/-- The six count sub-queries issued per region by
`get_stock_status_by_region`. -/
inductive SubQuery where
  | total : SubQuery
  | avail : SubQuery
  | over : SubQuery
  | under : SubQuery
  | normal : SubQuery
  | out : SubQuery
deriving DecidableEq, Repr

/-- One loop iteration of `get_stock_status_by_region` with fallible
sub-queries: the six `.scalar()` calls in source order, each able to raise. -/
def regionStatusE (q : Int → SubQuery → Except String Nat) (region : Region) :
    Except String RegionStatus := do
  let t ← q region.region_id SubQuery.total
  let a ← q region.region_id SubQuery.avail
  let o ← q region.region_id SubQuery.over
  let u ← q region.region_id SubQuery.under
  let n ← q region.region_id SubQuery.normal
  let z ← q region.region_id SubQuery.out
  pure { region := region.name, total_medicines := t, available_medicines := a,
         overstock := o, understock := u, normalstock := n, outofstock := z }

/-- The full loop of `get_stock_status_by_region` with fallible sub-queries:
`results.append` becomes the cons, and a raised exception propagates past
the remaining regions (`db_session` re-raises after rollback), so no partial
`results` list can be returned. -/
def get_stock_status_by_region_E (q : Int → SubQuery → Except String Nat) :
    List Region → Except String (List Dict)
  | [] => Except.ok []
  | r :: rs => do
    let st ← regionStatusE q r
    let rest ← get_stock_status_by_region_E q rs
    pure (regionStatusDict st :: rest)

/-- The value each count sub-query returns when the store is reachable:
the six counters of `regionStatus` keyed by sub-query kind. -/
def subQueryCount (store : Store) (rid : Int) : SubQuery → Nat
  | SubQuery.total => (regionInventoryRows store rid).length
  | SubQuery.avail =>
      ((regionInventoryRows store rid).filter (fun rc => stockGtZero rc.1)).length
  | SubQuery.over =>
      ((regionInventoryRows store rid).filter
        (fun rc => rc.1.status_indicator == some sSobrestock)).length
  | SubQuery.under =>
      ((regionInventoryRows store rid).filter
        (fun rc => rc.1.status_indicator == some sSubstock)).length
  | SubQuery.normal =>
      ((regionInventoryRows store rid).filter
        (fun rc => rc.1.status_indicator == some sNormostock)).length
  | SubQuery.out =>
      ((regionInventoryRows store rid).filter
        (fun rc => rc.1.status_indicator == some sDesabastecido)).length

/-! ### Spec-side definitions (for refinement claims)

These follow the words of the specification, to be compared with the
definitions above that were translated from the source.
-/

/-- Modelled from the spec: "substring match on product name
(case-insensitive)" — the needle occurs contiguously inside the haystack,
comparing lowercased characters. -/
def specSubstrCI (needle hay : String) : Prop :=
  lowerChars needle <:+: lowerChars hay

instance (needle hay : String) : Decidable (specSubstrCI needle hay) :=
  inferInstanceAs (Decidable (lowerChars needle <:+: lowerChars hay))

/-- Modelled from the spec: "avg_monthly_consumption = mean(
avg_monthly_consumption over rows with non-null value), 0 if no rows" —
the mean whose denominator counts only the rows carrying a value. -/
def spec_avg_nonnull (rows : List Inventory) : ℚ :=
  let vs := rows.filterMap (fun inv => inv.avg_monthly_consumption)
  if vs.isEmpty then 0 else vs.sum / (vs.length : ℚ)

/-- The average the source actually computes: the sum of the non-null
consumption values divided by the number of ALL rows (the generator skips
falsy values but `len(inventory_list)` counts every row), 0 when there are
no rows. -/
def avgOverAllRows (rows : List Inventory) : ℚ :=
  if rows.length = 0 then 0
  else (rows.filterMap (fun inv => inv.avg_monthly_consumption)).sum
    / (rows.length : ℚ)

/-! ### Concrete fixtures

Small stores used to evaluate the definitions on explicit inputs.
-/

/-- Region row with only the required columns set. -/
def mkRegion (id : Int) (nm : String) : Region :=
  { region_id := id, name := nm, code := none, created_at := none,
    updated_at := none }

/-- Medical-center row with only the required columns set. -/
def mkCenter (id : Int) (nm : String) (rid : Option Int) : MedicalCenter :=
  { center_id := id, code := none, name := nm, region_id := rid,
    category := none, reporter_name := none, institution_type := none,
    reporter_type := none, address := none, latitude := none,
    longitude := none, created_at := none, updated_at := none }

/-- Product row with only the required columns set. -/
def mkProduct (id : Int) (nm : String) : Product :=
  { product_id := id, code := none, name := nm, type_id := none,
    description := none, dosage_form := none, strength := none,
    created_at := none, updated_at := none }

/-- Inventory row with the columns the queries inspect. -/
def mkInv (id : Int) (cid pid stock : Option Int) (cons : Option ℚ)
    (ind : Option String) : Inventory :=
  { inventory_id := id, center_id := cid, product_id := pid,
    current_stock := stock, avg_monthly_consumption := cons,
    accumulated_consumption_4m := none, measurement := none,
    last_month_consumption := none, last_month_stock := none,
    status_indicator := ind, cpma_12_months_ago := none,
    cpma_24_months_ago := none, cpma_36_months_ago := none,
    accumulated_consumption_12m := none, report_date := none, status := none,
    created_at := none, updated_at := none }

/-- A store with no rows at all. -/
def emptyStore : Store :=
  { regions := [], centers := [], product_types := [], products := [],
    inventories := [] }

/-- One region and no inventory. -/
def storeOneRegion : Store :=
  { regions := [mkRegion 1 "Lima"], centers := [], product_types := [],
    products := [], inventories := [] }

/-- One product and nothing else. -/
def storeOneProduct : Store :=
  { regions := [], centers := [], product_types := [],
    products := [mkProduct 1 "Ibuprofeno"], inventories := [] }

/-- Two centers in one region holding equal stock of the same product; the
center with the larger id comes first in both the center table and the
inventory table. -/
def storeTie : Store :=
  { regions := [mkRegion 1 "Tacna"],
    centers := [mkCenter 2 "CentroB" (some 1), mkCenter 1 "CentroA" (some 1)],
    product_types := [],
    products := [mkProduct 1 "Amoxicilina"],
    inventories := [mkInv 1 (some 2) (some 1) (some 5) none none,
                    mkInv 2 (some 1) (some 1) (some 5) none none] }

/-- The spec scenario: Paracetamol stocked [50, 0, 5, 3] at four distinct
centers of one region. -/
def storeParacetamol : Store :=
  { regions := [mkRegion 1 "Lima"],
    centers := [mkCenter 1 "C1" (some 1), mkCenter 2 "C2" (some 1),
                mkCenter 3 "C3" (some 1), mkCenter 4 "C4" (some 1)],
    product_types := [],
    products := [mkProduct 1 "Paracetamol"],
    inventories := [mkInv 1 (some 1) (some 1) (some 50) none none,
                    mkInv 2 (some 2) (some 1) (some 0) none none,
                    mkInv 3 (some 3) (some 1) (some 5) none none,
                    mkInv 4 (some 4) (some 1) (some 3) none none] }

/-- 51 inventory rows of one product at one center, all with stock 1. -/
def storeFiftyOne : Store :=
  { regions := [mkRegion 1 "Puno"],
    centers := [mkCenter 1 "C" (some 1)],
    product_types := [],
    products := [mkProduct 1 "Aspirina"],
    inventories := (List.range 51).map
      (fun n => mkInv n (some 1) (some 1) (some 1) none none) }

/-- One region with one `Sobrestock` row and one row carrying an indicator
outside the four operational categories. -/
def storeIndicators : Store :=
  { regions := [mkRegion 1 "Cusco"],
    centers := [mkCenter 1 "C" (some 1)],
    product_types := [],
    products := [],
    inventories :=
      [mkInv 1 (some 1) (some 1) (some 4) none (some sSobrestock),
       mkInv 2 (some 1) (some 1) (some 0) none (some "Sin_Consumo")] }

/-- Inventory rows for one product: one with consumption 20, one with a
null consumption. -/
def rowsMixedConsumption : List Inventory :=
  [mkInv 1 none none (some 100) (some 20) none,
   mkInv 2 none none (some 50) none none]

/-- The spec scenario rows: consumption 20 and consumption 0. -/
def rowsSpecScenario : List Inventory :=
  [mkInv 1 none none (some 100) (some 20) none,
   mkInv 2 none none (some 50) (some 0) none]

/-- A product whose name matches the LIKE pattern built for the query
string `A%B` without containing that query as a literal substring. -/
def storeWildcard : Store :=
  { regions := [mkRegion 1 "Loreto"],
    centers := [mkCenter 1 "Hospital" (some 1)],
    product_types := [],
    products := [mkProduct 1 "AXB"],
    inventories := [mkInv 1 (some 1) (some 1) (some 3) none none] }

/-- Regions list for the fallible-aggregation fixture. -/
def regionsOne : List Region := [mkRegion 7 "Puno"]

/-- Sub-query oracle that fails the understock count and answers 3
everywhere else. -/
def qOneFailure : Int → SubQuery → Except String Nat :=
  fun _ k =>
    if k = SubQuery.under then Except.error "connection lost" else Except.ok 3

/-! ## Helper lemmas -/

/-- Lowercasing does not change the percent character. -/
theorem toLower_percent : Char.toLower '%' = '%' := rfl

/-- A leading percent matches exactly when the rest of the pattern matches
some suffix of the string. -/
theorem likeMatch_percent_cons (p : List Char) (s : List Char) :
    likeMatch ('%' :: p) s = true ↔ ∃ s2, s2 <:+ s ∧ likeMatch p s2 = true := by
  simp only [likeMatch, reduceIte, List.any_eq_true, List.mem_tails]

/-- The pattern consisting of a single percent matches every string. -/
theorem likeMatch_single_percent (s : List Char) : likeMatch ['%'] s = true := by
  rw [likeMatch_percent_cons]
  exact ⟨[], List.nil_suffix, by simp [likeMatch]⟩

/-- The pattern of two percents (built from the empty search string)
matches every string. -/
theorem likeMatch_double_percent (s : List Char) :
    likeMatch ['%', '%'] s = true :=
  (likeMatch_percent_cons ['%'] s).mpr
    ⟨s, List.suffix_refl s, likeMatch_single_percent s⟩

/-- A wildcard-free pattern followed by a percent matches exactly the
strings it is a prefix of. -/
theorem likeMatch_nowild_percent (q : List Char) (h : noWild q = true) :
    ∀ s : List Char, (likeMatch (q ++ ['%']) s = true ↔ q <+: s) := by
  induction q with
  | nil =>
    intro s
    simpa using likeMatch_single_percent s
  | cons p ps ih =>
    have hp : ¬ p = '%' ∧ ¬ p = '_' ∧ noWild ps = true := by
      simp only [noWild, List.all_cons, Bool.and_eq_true, decide_eq_true_eq] at h
      exact ⟨h.1.1, h.1.2, h.2⟩
    intro s
    cases s with
    | nil => simp [likeMatch, hp.1]
    | cons c s2 =>
      simp [likeMatch, hp.1, hp.2.1, List.cons_prefix_cons, ih hp.2.2 s2,
        Bool.and_eq_true, beq_iff_eq]

/-- For a wildcard-free query, the ILIKE filter built by the search
functions accepts exactly the rows whose column contains the query as a
case-insensitive substring. -/
theorem ilike_likePattern_iff (hay q : String)
    (h : noWild (lowerChars q) = true) :
    (ilike hay (likePattern q) = true ↔ lowerChars q <:+: lowerChars hay) := by
  have hpat : lowerChars (likePattern q) = '%' :: (lowerChars q ++ ['%']) := by
    simp [likePattern, lowerChars, String.data_append, toLower_percent]
  rw [ilike, hpat, likeMatch_percent_cons, List.infix_iff_prefix_suffix]
  constructor
  · rintro ⟨s2, hsuf, hm⟩
    exact ⟨s2, (likeMatch_nowild_percent _ h s2).mp hm, hsuf⟩
  · rintro ⟨s2, hpre, hsuf⟩
    exact ⟨s2, hsuf, (likeMatch_nowild_percent _ h s2).mpr hpre⟩

/-- The pattern built from the empty search string matches every string. -/
theorem ilike_empty_pattern (s : String) : ilike s (likePattern "") = true := by
  have h : lowerChars (likePattern "") = ['%', '%'] := rfl
  rw [ilike, h]
  exact likeMatch_double_percent _

/-- Summing the truthiness-filtered values of a list of nullable integers
equals summing with nulls read as 0 (dropping zeros does not change a sum). -/
theorem truthyInt_sum (l : List (Option Int)) :
    (l.filterMap truthyInt).sum = (l.map (fun o => o.getD 0)).sum := by
  induction l with
  | nil => rfl
  | cons o l ih =>
    cases o with
    | none => simpa [truthyInt] using ih
    | some v =>
      by_cases hv : v = 0 <;> simp [truthyInt, hv, ih]

/-- Summing the truthiness-filtered values of a list of nullable rationals
equals summing all non-null values. -/
theorem truthyRat_sum (l : List (Option ℚ)) :
    (l.filterMap truthyRat).sum = (l.filterMap id).sum := by
  induction l with
  | nil => rfl
  | cons o l ih =>
    cases o with
    | none => simpa [truthyRat] using ih
    | some v =>
      by_cases hv : v = 0 <;> simp [truthyRat, hv, ih]

/-- Four pairwise-exclusive boolean predicates partition their counts
below the count of their disjunction. -/
theorem countP_four_disjoint {α : Type} (l : List α) (p1 p2 p3 p4 : α → Bool)
    (h : ∀ a ∈ l,
      (p1 a).toNat + (p2 a).toNat + (p3 a).toNat + (p4 a).toNat ≤ 1) :
    l.countP p1 + l.countP p2 + l.countP p3 + l.countP p4
      = l.countP (fun a => p1 a || p2 a || p3 a || p4 a) := by
  induction l with
  | nil => rfl
  | cons a l ih =>
    have ha := h a (List.mem_cons_self a l)
    have ih2 := ih (fun b hb => h b (List.mem_cons_of_mem a hb))
    simp only [List.countP_cons]
    rw [← ih2] at *
    cases h1 : p1 a <;> cases h2 : p2 a <;> cases h3 : p3 a <;>
      cases h4 : p4 a <;> simp_all <;> omega

/-! ## Claim theorems -/

/-- C1 (counterexample): the claim that every record returned by
`get_stock_status_by_region` contains an `availability_percentage` field is
false at a store with one region and no inventory — the record of that
region carries no such field. -/
theorem region_record_percentage_cex :
    ¬ (∀ d ∈ get_stock_status_by_region storeOneRegion,
        (List.lookup kAvailabilityPercentage d).isSome = true) := by
  decide

/-- C1 (amended): every record returned by `get_stock_status_by_region`
carries exactly the seven keys region, total_medicines,
available_medicines, overstock, understock, normalstock, outofstock, and in
particular no `availability_percentage` field; the percentage is left to be
derived by the caller from available_medicines and total_medicines. -/
theorem region_record_keys (store : Store) (d : Dict)
    (hd : d ∈ get_stock_status_by_region store) :
    d.map Prod.fst
        = [kRegion, kTotalMedicines, kAvailableMedicines, kOverstock,
           kUnderstock, kNormalstock, kOutofstock]
    ∧ List.lookup kAvailabilityPercentage d = none := by
  obtain ⟨r, _, rfl⟩ := List.mem_map.mp hd
  exact ⟨rfl, rfl⟩

/-- C1 (witness): the amended statement evaluated at the one-region store. -/
theorem region_record_keys_witness :
    (regionStatusDict (regionStatus storeOneRegion (mkRegion 1 "Lima"))
        ∈ get_stock_status_by_region storeOneRegion)
    ∧ ((regionStatusDict (regionStatus storeOneRegion (mkRegion 1 "Lima"))).map
          Prod.fst
        = [kRegion, kTotalMedicines, kAvailableMedicines, kOverstock,
           kUnderstock, kNormalstock, kOutofstock]
      ∧ List.lookup kAvailabilityPercentage
          (regionStatusDict (regionStatus storeOneRegion (mkRegion 1 "Lima")))
          = none) :=
  ⟨by decide, region_record_keys storeOneRegion _ (by decide)⟩

/-- C2 (counterexample): the claim that `search_medicines_by_name` on the
empty string returns an empty result for every store is false — on a store
holding one product it returns that product, because the pattern built from
the empty string matches every name. -/
theorem search_empty_name_cex :
    search_medicines_by_name storeOneProduct "" 50 ≠ [] := by
  decide

/-- C2 (amended): `search_medicines_by_name` with the empty string builds
the LIKE pattern consisting of two percent signs, which matches every
product name, so the call returns all products up to the limit (and, being
a total function of the store, never signals an error). -/
theorem search_empty_name_returns_all (store : Store) (limit : Nat) :
    search_medicines_by_name store "" limit
      = (store.products.take limit).map (product_to_dict store) := by
  unfold search_medicines_by_name
  rw [List.filter_eq_self.mpr (fun p _ => ilike_empty_pattern p.name)]

/-- C4 (counterexample): the claim that every sequence-returning query is
capped at the configurable limit (default 50) is false for
`get_available_medicine_locations`, which applies no LIMIT: over 51
matching rows it returns 51 records. -/
theorem available_locations_uncapped_cex :
    ¬ ((get_available_medicine_locations storeFiftyOne "Aspirina" 1).length
        ≤ MAX_SEARCH_RESULTS) := by
  decide

/-- C4 (amended): `search_medicines_by_name` and
`search_medicines_by_location` return at most `limit` records, whose
default is the configurable `MAX_SEARCH_RESULTS` with default value 50;
`get_available_medicine_locations` applies no cap. -/
theorem name_location_searches_capped (store : Store) (name diresa : String)
    (categoria : Option String) (limit : Nat) :
    (search_medicines_by_name store name limit).length ≤ limit
    ∧ (search_medicines_by_location store diresa categoria limit).length ≤ limit
    ∧ MAX_SEARCH_RESULTS = 50 := by
  refine ⟨?_, ?_, rfl⟩
  · simp only [search_medicines_by_name, List.length_map, List.length_take]
    omega
  · unfold search_medicines_by_location
    cases categoria with
    | none =>
        simp only [List.length_map, List.length_take]
        omega
    | some cat =>
        by_cases hc : cat.isEmpty <;>
          simp only [hc, if_pos, if_neg, Bool.false_eq_true, if_false, if_true,
            List.length_map, List.length_take] <;>
          omega

/-- C8 (confirmed): `get_medicine_by_id` either returns `none` and no
product of the store carries the requested id, or returns some stored
product carrying exactly that id; being a total function it never raises
for a missing id. -/
theorem get_by_id_lookup (store : Store) (medicine_id : Int) :
    (get_medicine_by_id store medicine_id = none
        ∧ ∀ p ∈ store.products, p.product_id ≠ medicine_id)
    ∨ (∃ p ∈ store.products,
        get_medicine_by_id store medicine_id = some p
        ∧ p.product_id = medicine_id) := by
  unfold get_medicine_by_id
  rcases hf : store.products.find? (fun p => p.product_id == medicine_id)
    with _ | p
  · left
    refine ⟨hf, fun p hp => ?_⟩
    have := List.find?_eq_none.mp hf p hp
    simpa using this
  · right
    refine ⟨p, List.mem_of_find?_eq_some hf, hf, ?_⟩
    have := List.find?_some hf
    simpa using this

/-- C8 (witness): the spec scenario — id 999999 on the empty store. -/
theorem get_by_id_lookup_witness :
    (get_medicine_by_id emptyStore 999999 = none
        ∧ ∀ p ∈ emptyStore.products, p.product_id ≠ 999999)
    ∨ (∃ p ∈ emptyStore.products,
        get_medicine_by_id emptyStore 999999 = some p
        ∧ p.product_id = 999999) :=
  get_by_id_lookup emptyStore 999999

/-- C10 (confirmed): the caller string is embedded unescaped in the LIKE
pattern, so a percent in the input acts as a wildcard: for the input
consisting of A, percent, B, both `search_medicines_by_name` and
`get_available_medicine_locations` return the product named AXB although
that name does not contain the input as a (case-insensitive) substring. -/
theorem like_wildcard_injection :
    (product_to_dict storeWildcard (mkProduct 1 "AXB")
        ∈ search_medicines_by_name storeWildcard "A%B" 50)
    ∧ (({ region := "Loreto", category := none, center_name := "Hospital",
           reporter_name := none, stock := some 3 } : LocationRecord)
        ∈ get_available_medicine_locations storeWildcard "A%B" 1)
    ∧ ¬ specSubstrCI "A%B" "AXB" :=
  ⟨by decide, by decide, by decide⟩

/-- C3 (counterexample): the claimed stable tie-break by center id is false
— over two equal-stock rows whose centers have ids 2 and 1 (in that table
order), `get_available_medicine_locations` keeps join order and returns the
id-2 center first, while the claim mandates the id-1 center first. -/
theorem available_locations_tie_cex :
    get_available_medicine_locations storeTie "Amoxicilina" 1
        = [{ region := "Tacna", category := none, center_name := "CentroB",
             reporter_name := none, stock := some 5 },
           { region := "Tacna", category := none, center_name := "CentroA",
             reporter_name := none, stock := some 5 }]
    ∧ get_available_medicine_locations storeTie "Amoxicilina" 1
        ≠ [{ region := "Tacna", category := none, center_name := "CentroA",
             reporter_name := none, stock := some 5 },
           { region := "Tacna", category := none, center_name := "CentroB",
             reporter_name := none, stock := some 5 }] :=
  ⟨by decide, by decide⟩

/-- C3 (amended): for a wildcard-free query, the records returned by
`get_available_medicine_locations` are exactly (a permutation of) the
joined rows whose product name contains the query as a case-insensitive
substring and whose stock is at least `min_stock`, projected to the five
location fields, and the output is ordered by stock descending; no
tie-break by center id is imposed (ties keep join order). -/
theorem available_locations_spec (store : Store) (name : String)
    (min_stock : Int) (h : noWild (lowerChars name) = true) :
    List.Perm (get_available_medicine_locations store name min_stock)
      (((joinPICR store).filter (fun t =>
          decide (specSubstrCI name t.1.name)
            && minStockFilter min_stock t.2.1)).map selectLocation)
    ∧ List.Sorted stockDesc
        (get_available_medicine_locations store name min_stock) := by
  have hfilter :
      (joinPICR store).filter (fun t =>
          ilike t.1.name (likePattern name) && minStockFilter min_stock t.2.1)
        = (joinPICR store).filter (fun t =>
          decide (specSubstrCI name t.1.name)
            && minStockFilter min_stock t.2.1) := by
    apply List.filter_congr
    intro t _
    have h2 : (ilike t.1.name (likePattern name) = true)
        ↔ (decide (specSubstrCI name t.1.name) = true) := by
      rw [decide_eq_true_eq]
      exact ilike_likePattern_iff t.1.name name h
    cases hcase : ilike t.1.name (likePattern name) <;>
      cases hcase2 : decide (specSubstrCI name t.1.name) <;> simp_all
  constructor
  · unfold get_available_medicine_locations
    rw [hfilter]
    exact List.perm_insertionSort stockDesc _
  · unfold get_available_medicine_locations
    exact List.sorted_insertionSort stockDesc _

/-- C3 (witness): the spec scenario — Paracetamol with stocks 50, 0, 5, 3
and minimum stock 5. -/
theorem available_locations_spec_witness :
    noWild (lowerChars "Paracetamol") = true
    ∧ (List.Perm (get_available_medicine_locations storeParacetamol
          "Paracetamol" 5)
        (((joinPICR storeParacetamol).filter (fun t =>
            decide (specSubstrCI "Paracetamol" t.1.name)
              && minStockFilter 5 t.2.1)).map selectLocation)
      ∧ List.Sorted stockDesc
          (get_available_medicine_locations storeParacetamol "Paracetamol" 5)) :=
  ⟨by decide, available_locations_spec storeParacetamol "Paracetamol" 5 (by decide)⟩

/-- C6 (counterexample): the claim that the derived average consumption is
the mean over rows with a non-null value is false — on one row with
consumption 20 and one row with null consumption the code divides by the
total row count and returns 10, while the claimed mean is 20. -/
theorem supply_metrics_mean_cex :
    (derive_supply_metrics rowsMixedConsumption).avg_monthly_consumption
      ≠ spec_avg_nonnull rowsMixedConsumption := by
  have h1 : (derive_supply_metrics rowsMixedConsumption).avg_monthly_consumption
      = 10 := by
    norm_num [derive_supply_metrics, rowsMixedConsumption, mkInv, truthyRat,
      round2, List.filterMap_cons, round_ofNat]
  have h2 : spec_avg_nonnull rowsMixedConsumption = 20 := by
    norm_num [spec_avg_nonnull, rowsMixedConsumption, mkInv,
      List.filterMap_cons]
  rw [h1, h2]
  norm_num

/-- C6 (amended): the derivation returns the sum of current_stock with
nulls read as 0; the returned average consumption is the sum of the
non-null consumption values divided by the number of all rows (not only the
rows with a value), 0 when there are no rows, rounded to 2 decimals; months
of supply is total stock over the unrounded average rounded to 2 decimals
when that average is positive and 0 otherwise; the empty list yields all
zeros. -/
theorem supply_metrics_formulas (rows : List Inventory) :
    (derive_supply_metrics rows).total_stock
        = (rows.map (fun inv => (inv.current_stock).getD 0)).sum
    ∧ (derive_supply_metrics rows).avg_monthly_consumption
        = round2 (avgOverAllRows rows)
    ∧ (derive_supply_metrics rows).months_of_supply
        = (if 0 < avgOverAllRows rows
           then round2
             (((((rows.map (fun inv => (inv.current_stock).getD 0)).sum
                  : Int) : ℚ))
               / avgOverAllRows rows)
           else 0)
    ∧ derive_supply_metrics []
        = { total_stock := 0, avg_monthly_consumption := 0,
            months_of_supply := 0 } := by
  have htotal : ((rows.map (fun inv => inv.current_stock)).filterMap
        truthyInt).sum
      = (rows.map (fun inv => (inv.current_stock).getD 0)).sum := by
    rw [truthyInt_sum, List.map_map]
    rfl
  have havg : (if rows.isEmpty then (0 : ℚ)
        else ((rows.map (fun inv => inv.avg_monthly_consumption)).filterMap
            truthyRat).sum / (rows.length : ℚ))
      = avgOverAllRows rows := by
    rw [truthyRat_sum, List.filterMap_map]
    unfold avgOverAllRows
    cases rows <;> simp
  refine ⟨?_, ?_, ?_, ?_⟩
  · simp only [derive_supply_metrics]
    exact htotal
  · simp only [derive_supply_metrics]
    rw [havg]
  · simp only [derive_supply_metrics]
    rw [havg, htotal]
  · norm_num [derive_supply_metrics, round2, SupplyMetrics.mk.injEq]

/-- C7 (confirmed): the global statistics carry
`availability_rate = round(available / total * 100, 2)` when the inventory
table is non-empty and 0 when it is empty, the division-by-zero case being
guarded rather than an error (the function is total). -/
theorem availability_rate_formula (store : Store) :
    (get_medicine_statistics store).availability_rate
      = if store.inventories.length = 0 then 0
        else round2 ((((store.inventories.filter stockGtZero).length : ℚ)
          / (store.inventories.length : ℚ)) * 100) := by
  unfold get_medicine_statistics
  rcases Nat.eq_zero_or_pos store.inventories.length with h | h
  · simp [h]
  · simp only [h, if_pos, Nat.pos_iff_ne_zero.mp h, if_neg,
      Nat.pos_iff_ne_zero]
    simp [Nat.pos_iff_ne_zero.mp h, h]

/-- C5 (confirmed): for every region of the store, the four status-bucket
counters of its `get_stock_status_by_region` entry sum to at most the total
inventory count of the region, with equality exactly when every inventory
row of the region carries one of the four operational indicators. -/
theorem region_bucket_bound (store : Store) (region : Region)
    (hr : region ∈ store.regions) :
    ((regionStatus store region).overstock
        + (regionStatus store region).understock
        + (regionStatus store region).normalstock
        + (regionStatus store region).outofstock
      ≤ (regionStatus store region).total_medicines)
    ∧ ((regionStatus store region).overstock
          + (regionStatus store region).understock
          + (regionStatus store region).normalstock
          + (regionStatus store region).outofstock
        = (regionStatus store region).total_medicines
      ↔ ∀ rc ∈ regionInventoryRows store region.region_id,
          rc.1.status_indicator
            ∈ [some sSobrestock, some sSubstock, some sNormostock,
               some sDesabastecido]) := by
  have hdisj : ∀ rc : Inventory × MedicalCenter,
      rc ∈ regionInventoryRows store region.region_id →
      (rc.1.status_indicator == some sSobrestock).toNat
        + (rc.1.status_indicator == some sSubstock).toNat
        + (rc.1.status_indicator == some sNormostock).toNat
        + (rc.1.status_indicator == some sDesabastecido).toNat ≤ 1 := by
    intro rc _
    rcases hs : rc.1.status_indicator with _ | s
    · simp
    · cases hb1 : (s == sSobrestock) <;> cases hb2 : (s == sSubstock) <;>
        cases hb3 : (s == sNormostock) <;> cases hb4 : (s == sDesabastecido) <;>
        first
          | (simp [hb1, hb2, hb3, hb4]; done)
          | (simp only [beq_iff_eq] at hb1 hb2 hb3 hb4
             simp_all [sSobrestock, sSubstock, sNormostock, sDesabastecido])
  have key := countP_four_disjoint (regionInventoryRows store region.region_id)
    (fun rc => rc.1.status_indicator == some sSobrestock)
    (fun rc => rc.1.status_indicator == some sSubstock)
    (fun rc => rc.1.status_indicator == some sNormostock)
    (fun rc => rc.1.status_indicator == some sDesabastecido) hdisj
  simp only [regionStatus, ← List.countP_eq_length_filter]
  rw [key]
  constructor
  · exact List.countP_le_length _
  · rw [List.countP_eq_length]
    constructor
    · intro hall rc hrc
      have := hall rc hrc
      simp only [Bool.or_eq_true, beq_iff_eq] at this
      simpa [List.mem_cons, or_assoc] using this
    · intro hall rc hrc
      have := hall rc hrc
      simp only [List.mem_cons, List.not_mem_nil, or_false] at this
      simp only [Bool.or_eq_true, beq_iff_eq]
      tauto

/-- C5 (witness): the bound and the equality condition evaluated at a
store whose region holds one Sobrestock row and one row with an indicator
outside the four categories. -/
theorem region_bucket_bound_witness :
    ((mkRegion 1 "Cusco") ∈ storeIndicators.regions)
    ∧ (((regionStatus storeIndicators (mkRegion 1 "Cusco")).overstock
          + (regionStatus storeIndicators (mkRegion 1 "Cusco")).understock
          + (regionStatus storeIndicators (mkRegion 1 "Cusco")).normalstock
          + (regionStatus storeIndicators (mkRegion 1 "Cusco")).outofstock
        ≤ (regionStatus storeIndicators (mkRegion 1 "Cusco")).total_medicines)
      ∧ ((regionStatus storeIndicators (mkRegion 1 "Cusco")).overstock
            + (regionStatus storeIndicators (mkRegion 1 "Cusco")).understock
            + (regionStatus storeIndicators (mkRegion 1 "Cusco")).normalstock
            + (regionStatus storeIndicators (mkRegion 1 "Cusco")).outofstock
          = (regionStatus storeIndicators (mkRegion 1 "Cusco")).total_medicines
        ↔ ∀ rc ∈ regionInventoryRows storeIndicators (mkRegion 1 "Cusco").region_id,
            rc.1.status_indicator
              ∈ [some sSobrestock, some sSubstock, some sNormostock,
                 some sDesabastecido])) :=
  ⟨by decide, region_bucket_bound storeIndicators (mkRegion 1 "Cusco") (by decide)⟩

/-- A failing sub-query makes the whole per-region block of six count
queries fail with some error. -/
theorem regionStatusE_error (q : Int → SubQuery → Except String Nat)
    (region : Region) (k : SubQuery)
    (hq : ∃ e, q region.region_id k = Except.error e) :
    ∃ e, regionStatusE q region = Except.error e := by
  obtain ⟨e, he⟩ := hq
  rcases ht : q region.region_id SubQuery.total with et | t
  · exact ⟨et, by simp [regionStatusE, ht, bind, Except.bind]⟩
  · rcases ha : q region.region_id SubQuery.avail with ea | a
    · exact ⟨ea, by simp [regionStatusE, ht, ha, bind, Except.bind]⟩
    · rcases ho : q region.region_id SubQuery.over with eo | o
      · exact ⟨eo, by simp [regionStatusE, ht, ha, ho, bind, Except.bind]⟩
      · rcases hu : q region.region_id SubQuery.under with eu | u
        · exact ⟨eu, by simp [regionStatusE, ht, ha, ho, hu, bind, Except.bind]⟩
        · rcases hn : q region.region_id SubQuery.normal with en | n
          · exact ⟨en,
              by simp [regionStatusE, ht, ha, ho, hu, hn, bind, Except.bind]⟩
          · rcases hz : q region.region_id SubQuery.out with ez | z
            · exact ⟨ez,
                by simp [regionStatusE, ht, ha, ho, hu, hn, hz, bind,
                  Except.bind]⟩
            · exfalso
              cases k <;> simp_all

/-- C9 (confirmed): if any per-region count sub-query fails, the whole
`get_stock_status_by_region` aggregation fails — the error propagates
through the loop (via the re-raising session scope) and the result is an
error value carrying no partial list of region records. -/
theorem subquery_failure_fails_aggregation
    (q : Int → SubQuery → Except String Nat) (regions : List Region)
    (r : Region) (k : SubQuery) (hr : r ∈ regions)
    (hq : ∃ e, q r.region_id k = Except.error e) :
    ∃ e, get_stock_status_by_region_E q regions = Except.error e := by
  induction regions with
  | nil => cases hr
  | cons r0 rs ih =>
    rcases List.mem_cons.mp hr with heq | hmem
    · subst heq
      obtain ⟨e, he⟩ := regionStatusE_error q r k hq
      exact ⟨e, by simp [get_stock_status_by_region_E, he, bind, Except.bind]⟩
    · rcases h0 : regionStatusE q r0 with e0 | st
      · exact ⟨e0,
          by simp [get_stock_status_by_region_E, h0, bind, Except.bind]⟩
      · obtain ⟨e, he⟩ := ih hmem
        exact ⟨e,
          by simp [get_stock_status_by_region_E, h0, he, bind, Except.bind]⟩

/-- The fallible loop specialized to the infallible sub-query oracle is
exactly the pure `get_stock_status_by_region`: the two models agree when no
sub-query fails. -/
theorem aggregation_E_ok (store : Store) :
    get_stock_status_by_region_E (fun rid k => Except.ok (subQueryCount store rid k))
        store.regions
      = Except.ok (get_stock_status_by_region store) := by
  show _ = Except.ok (store.regions.map
    (fun r => regionStatusDict (regionStatus store r)))
  induction store.regions with
  | nil => rfl
  | cons r rs ih =>
    have hreg : regionStatusE (fun rid k => Except.ok (subQueryCount store rid k)) r
        = Except.ok (regionStatus store r) := rfl
    simp [get_stock_status_by_region_E, hreg, ih, bind, Except.bind, pure,
      Except.pure]

/-- C9 (witness): one region whose understock count query fails with a
connection error — the aggregation returns an error. -/
theorem subquery_failure_witness :
    ∃ e, get_stock_status_by_region_E qOneFailure regionsOne
        = Except.error e :=
  subquery_failure_fails_aggregation qOneFailure regionsOne (mkRegion 7 "Puno")
    SubQuery.under (by decide) ⟨"connection lost", rfl⟩

end Medifinder
